import Mathlib

/-!
Verification of the G-code feature scanner in `src/verify.py` (function
`step_3_analyze_gcode`, lines 175-251), against its natural-language
specification.

The scanner is embedded shallowly: each Python string primitive used by the
scanner is modelled as a computable Lean function over `List Char` (Lean's
`String` is a structure holding a `List Char`, and list-level functions
reduce inside the kernel), Python floats are modelled as exact rationals
(`ℚ`) — every numeric literal appearing in the claims ("25.0", "1.0", the
threshold 20.0, …) is exactly representable, and the scanner only parses,
stores and compares these values, so the rational model is exact on them —
and the `try/except` around the scanning loop is modelled by `Except Unit`.
The state mutated by the loop (`current_z`, `current_type`, `bad_layers`,
`has_bad_infill`) is collected in the structure `ScanState`.
-/

/-! ### Python string primitives -/

/-- Models Python `str.strip()`: removes leading and trailing whitespace
(verify.py line 200: `line = line.strip()`). -/
def pyStrip (cs : List Char) : List Char :=
  ((cs.dropWhile Char.isWhitespace).reverse.dropWhile Char.isWhitespace).reverse

/-- Splits a char list at every char satisfying `p`, keeping empty groups,
like Python `str.split(sep)` for a one-char separator. -/
def splitPred (p : Char → Bool) : List Char → List (List Char)
  | [] => [[]]
  | c :: rest =>
    if p c then [] :: splitPred p rest
    else
      match splitPred p rest with
      | g :: gs => (c :: g) :: gs
      | [] => [[c]]

/-- Models Python `line.split(":")` (verify.py lines 205 and 222). -/
def splitColon (cs : List Char) : List (List Char) := splitPred (fun c => c == ':') cs

/-- Models Python `line.split()` with no argument: split on whitespace runs,
discarding empty tokens (verify.py line 212: `parts = line.split()`). -/
def pySplitWs (cs : List Char) : List (List Char) :=
  (splitPred Char.isWhitespace cs).filter (fun t => !t.isEmpty)

/-- Models Python `needle in hay` substring containment
(verify.py lines 211 and 230). -/
def subList (needle : List Char) : List Char → Bool
  | [] => needle.isPrefixOf []
  | c :: rest => needle.isPrefixOf (c :: rest) || subList needle rest

/-- Models Python truthiness of a string: a string is truthy iff non-empty.
Used to embed the constant operand of `not "E-."` on verify.py line 230. -/
def pyStrTruthy (cs : List Char) : Bool := !cs.isEmpty

/-! ### Python `float()` on decimal literals

`parsePyFloat` models Python's `float(str)` on finite decimal literals
(optional sign, digits with at most one dot, optional decimal exponent,
surrounding whitespace stripped), returning `none` where Python raises
`ValueError`.  The special spellings `inf`/`nan` are not representable in ℚ
and never reach the scanner on the inputs the claims are about, so they are
parsed as `none`.  The value is built with `mkRat` from integer arithmetic,
which is exact on decimal literals. -/

/-- Numeric value of a digit run, most significant first. -/
def digitsVal (ds : List Char) : Nat :=
  ds.foldl (fun n c => 10 * n + (c.toNat - 48)) 0

/-- Consumes an optional leading sign; returns (isNegative, rest). -/
def parseSign : List Char → Bool × List Char
  | '-' :: r => (true, r)
  | '+' :: r => (false, r)
  | r => (false, r)

/-- Exact rational value of the decimal literal with integer-part digits
`ip`, fraction digits `fp`, and exponent digits `ed` with sign `eneg`;
`neg` is the sign of the mantissa. -/
def decimalVal (neg : Bool) (ip fp : List Char) (eneg : Bool) (ed : List Char) : ℚ :=
  let mant : Int := (digitsVal ip * 10 ^ fp.length + digitsVal fp : Nat)
  let num : Int := (if neg then -mant else mant) * (if eneg then 1 else 10 ^ digitsVal ed)
  let den : Nat := 10 ^ fp.length * (if eneg then 10 ^ digitsVal ed else 1)
  mkRat num den

/-- Models Python `float(s)` on a decimal literal; `none` models a raised
`ValueError` (always locally caught in verify.py lines 204-207, 215-218,
and fatal at line 234 via the loop-level `except` at line 242). -/
def parsePyFloat (cs : List Char) : Option ℚ :=
  match parseSign (pyStrip cs) with
  | (neg, cs1) =>
    let ip := cs1.takeWhile Char.isDigit
    let rest1 := cs1.dropWhile Char.isDigit
    match rest1 with
    | '.' :: cs2 =>
      let fp := cs2.takeWhile Char.isDigit
      let rest2 := cs2.dropWhile Char.isDigit
      if ip.isEmpty && fp.isEmpty then none
      else
        match rest2 with
        | [] => some (decimalVal neg ip fp false [])
        | 'e' :: r | 'E' :: r =>
          match parseSign r with
          | (eneg, r1) =>
            let ed := r1.takeWhile Char.isDigit
            let r2 := r1.dropWhile Char.isDigit
            if ed.isEmpty || !r2.isEmpty then none
            else some (decimalVal neg ip fp eneg ed)
        | _ => none
    | _ =>
      if ip.isEmpty then none
      else
        match rest1 with
        | [] => some (decimalVal neg ip [] false [])
        | 'e' :: r | 'E' :: r =>
          match parseSign r with
          | (eneg, r1) =>
            let ed := r1.takeWhile Char.isDigit
            let r2 := r1.dropWhile Char.isDigit
            if ed.isEmpty || !r2.isEmpty then none
            else some (decimalVal neg ip [] eneg ed)
        | _ => none

/-! ### The scanner state and per-line step (verify.py 185-240) -/

/-- The mutable loop state of `step_3_analyze_gcode`:
`current_z` (line 186), `current_type` (line 187), `bad_layers` (line 195)
and `has_bad_infill` (line 185). -/
structure ScanState where
  current_z : ℚ
  current_type : Option String
  bad_layers : List ℚ
  has_bad_infill : Bool
deriving DecidableEq

/-- verify.py line 193: `Z_THRESHOLD = 20.0`. -/
def Z_THRESHOLD : ℚ := 20

/-- The state at loop entry (verify.py lines 185-187, 195). -/
def initState : ScanState :=
  { current_z := 0, current_type := none, bad_layers := [], has_bad_infill := false }

/-- verify.py lines 203-208: on a line starting with `";Z:"`, try
`current_z = float(line.split(":")[1])`, a parse failure being silently
skipped (`except: pass`). -/
def zCommentUpdate (s : ScanState) (line : List Char) : ScanState :=
  match parsePyFloat ((splitColon line).getD 1 []) with
  | some v => { s with current_z := v }
  | none => s

/-- verify.py lines 214-218: one iteration of the token loop — if the token
starts with `"Z"`, try `current_z = float(p[1:])`, a parse failure keeping
the previous value. -/
def g1ZFold (z : ℚ) (p : List Char) : ℚ :=
  if "Z".data.isPrefixOf p then (parsePyFloat (p.drop 1)).getD z else z

/-- verify.py lines 211-218: on a line starting with `"G1"` and containing
`"Z"`, fold the token loop over `line.split()`; otherwise no change. -/
def motionUpdate (s : ScanState) (line : List Char) : ScanState :=
  if "G1".data.isPrefixOf line && subList "Z".data line then
    { s with current_z := (pySplitWs line).foldl g1ZFold s.current_z }
  else s

/-- verify.py line 230: the condition
`"E" in line and not "E0" in line and not "E-."` — the third conjunct
negates the constant non-empty string literal `"E-."`. -/
def extrusionStringCheck (line : List Char) : Bool :=
  subList "E".data line && !(subList "E0".data line) && !(pyStrTruthy "E-.".data)

/-- verify.py line 233: `re.search(r"E([0-9\.]+)", line)` — finds the first
`E` followed by at least one char in `[0-9.]` and returns the maximal such
run after it (`group(1)`), or `none` when the pattern does not occur. -/
def eGroup : List Char → Option (List Char)
  | [] => none
  | c :: rest =>
    if c == 'E' then
      let run := rest.takeWhile (fun d => d.isDigit || d == '.')
      if run.isEmpty then eGroup rest else some run
    else eGroup rest

/-- verify.py lines 230-240: the extrusion check and violation recording.
`Except.error ()` models the un-caught `ValueError` of `float()` at
line 234 (the regex group can be all dots), which the loop-level `except`
at line 242 turns into `return False`. -/
def checkExtrusion (s : ScanState) (line : List Char) : Except Unit ScanState :=
  if extrusionStringCheck line then
    match eGroup line with
    | some run =>
      match parsePyFloat run with
      | none => Except.error ()
      | some val =>
        if Rat.blt 0 val then
          if s.bad_layers.contains s.current_z then Except.ok s
          else Except.ok { s with bad_layers := s.bad_layers ++ [s.current_z],
                                  has_bad_infill := true }
        else Except.ok s
    | none => Except.ok s
  else Except.ok s

/-- verify.py lines 221-240: the part of the loop body reached when the line
is not a `";Z:"` comment — the `G1`/`Z` update falls through to the
`";TYPE:"` check (which `continue`s) and then to the policy check
`current_type == "Sparse infill" and current_z > Z_THRESHOLD`. -/
def afterMotion (t : ℚ) (s1 : ScanState) (line : List Char) : Except Unit ScanState :=
  if ";TYPE:".data.isPrefixOf line then
    Except.ok { s1 with current_type := some (String.mk ((splitColon line).getD 1 [])) }
  else if s1.current_type == some "Sparse infill" && Rat.blt t s1.current_z then
    checkExtrusion s1 line
  else
    Except.ok s1

/-- One loop iteration of verify.py lines 199-240 on an already stripped
line.  The threshold is a parameter; verify.py fixes it to `Z_THRESHOLD`. -/
def processStripped (t : ℚ) (s : ScanState) (line : List Char) : Except Unit ScanState :=
  if ";Z:".data.isPrefixOf line then Except.ok (zCommentUpdate s line)
  else afterMotion t (motionUpdate s line) line

/-- One loop iteration of verify.py lines 199-240 on a raw line
(line 200 strips it first). -/
def processLine (t : ℚ) (s : ScanState) (rawLine : String) : Except Unit ScanState :=
  processStripped t s (pyStrip rawLine.data)

/-- The whole `for line in f` loop (verify.py lines 199-240): a left fold of
`processLine` that aborts on the first uncaught exception. -/
def scanLines (t : ℚ) (s : ScanState) : List String → Except Unit ScanState
  | [] => Except.ok s
  | l :: ls =>
    match processLine t s l with
    | Except.ok s1 => scanLines t s1 ls
    | Except.error e => Except.error e

/-! ### The function's outcome and returned value (verify.py 175-251) -/

/-- The three terminal outcomes of `step_3_analyze_gcode`: the input file is
missing or unreadable (line 181), the loop raised (line 242), or the scan
completed with the final flag and recorded layers (lines 246-251). -/
inductive AnalyzeOutcome where
  | fileMissing : AnalyzeOutcome
  | parseError : AnalyzeOutcome
  | scanDone : Bool → List ℚ → AnalyzeOutcome
deriving DecidableEq

/-- The outcome of `step_3_analyze_gcode` on an input modelled as
`none` (missing/unreadable file) or `some lines` (the file's lines). -/
def step_3_outcome : Option (List String) → AnalyzeOutcome
  | none => AnalyzeOutcome.fileMissing
  | some lines =>
    match scanLines Z_THRESHOLD initState lines with
    | Except.error _ => AnalyzeOutcome.parseError
    | Except.ok s => AnalyzeOutcome.scanDone s.has_bad_infill s.bad_layers

/-- The value `step_3_analyze_gcode` returns for each outcome:
`False` at line 183 (file missing), `False` at line 244 (exception),
`False` at line 248 / `True` at line 251 (scan completed). -/
def step_3_return : AnalyzeOutcome → Bool
  | AnalyzeOutcome.fileMissing => false
  | AnalyzeOutcome.parseError => false
  | AnalyzeOutcome.scanDone b _ => !b

/-- verify.py lines 175-251: the returned boolean of `step_3_analyze_gcode`. -/
def step_3_analyze_gcode (input : Option (List String)) : Bool :=
  step_3_return (step_3_outcome input)

/-! ### Key structural facts -/

/-- The constant conjunct of verify.py line 230: `"E-."` is a non-empty
string literal, so it is truthy. -/
lemma pyStrTruthy_EDashDot : pyStrTruthy "E-.".data = true := rfl

/-- The extrusion condition of verify.py line 230 is identically false: its
last conjunct is the negation of a truthy constant. -/
lemma extrusionStringCheck_false (line : List Char) : extrusionStringCheck line = false := by
  unfold extrusionStringCheck
  rw [pyStrTruthy_EDashDot]
  simp

/-- Consequently the whole violation-recording block (verify.py 230-240)
never changes the state and never raises. -/
lemma checkExtrusion_eq (s : ScanState) (line : List Char) :
    checkExtrusion s line = Except.ok s := by
  unfold checkExtrusion
  rw [extrusionStringCheck_false]
  rfl

/-- `zCommentUpdate` only ever writes `current_z`. -/
lemma zCommentUpdate_fields (s : ScanState) (line : List Char) :
    (zCommentUpdate s line).current_type = s.current_type ∧
    (zCommentUpdate s line).bad_layers = s.bad_layers ∧
    (zCommentUpdate s line).has_bad_infill = s.has_bad_infill := by
  unfold zCommentUpdate
  cases parsePyFloat ((splitColon line).getD 1 []) <;> exact ⟨rfl, rfl, rfl⟩

/-- `motionUpdate` only ever writes `current_z`. -/
lemma motionUpdate_fields (s : ScanState) (line : List Char) :
    (motionUpdate s line).current_type = s.current_type ∧
    (motionUpdate s line).bad_layers = s.bad_layers ∧
    (motionUpdate s line).has_bad_infill = s.has_bad_infill := by
  unfold motionUpdate
  split <;> exact ⟨rfl, rfl, rfl⟩

/-- A line starting with `";TYPE:"` does not start with `";Z:"` (they differ
at the second character). -/
lemma starts_TYPE_not_Z (line : List Char) (h : (";TYPE:".data.isPrefixOf line) = true) :
    (";Z:".data.isPrefixOf line) = false := by
  rw [show ";TYPE:".data = [';', 'T', 'Y', 'P', 'E', ':'] from rfl] at h
  rw [show ";Z:".data = [';', 'Z', ':'] from rfl]
  cases line with
  | nil => exact absurd h (by decide)
  | cons c1 rest =>
    cases rest with
    | nil =>
      rw [show List.isPrefixOf [';', 'T', 'Y', 'P', 'E', ':'] [c1] =
            ((';' == c1) && false) from rfl] at h
      simp at h
    | cons c2 rest2 =>
      rw [show List.isPrefixOf [';', 'T', 'Y', 'P', 'E', ':'] (c1 :: c2 :: rest2) =
            ((';' == c1) && (('T' == c2) &&
              List.isPrefixOf ['Y', 'P', 'E', ':'] rest2)) from rfl] at h
      rw [show List.isPrefixOf [';', 'Z', ':'] (c1 :: c2 :: rest2) =
            ((';' == c1) && (('Z' == c2) && List.isPrefixOf [':'] rest2)) from rfl]
      simp only [Bool.and_eq_true, beq_iff_eq] at h
      obtain ⟨-, h2, -⟩ := h
      subst h2
      simp

/-- The step on a non-`";Z:"`-branch line: always `ok`, and it preserves the
violation data; it preserves `current_type` unless the line is a `";TYPE:"`
directive. -/
lemma afterMotion_spec (t : ℚ) (s : ScanState) (line : List Char) :
    ∃ s', afterMotion t s line = Except.ok s' ∧
      s'.bad_layers = s.bad_layers ∧
      s'.has_bad_infill = s.has_bad_infill ∧
      ((";TYPE:".data.isPrefixOf line) = false → s'.current_type = s.current_type) := by
  unfold afterMotion
  by_cases h1 : (";TYPE:".data.isPrefixOf line) = true
  · rw [if_pos h1]
    exact ⟨_, rfl, rfl, rfl, fun hf => absurd h1 (by simp [hf])⟩
  · rw [if_neg h1]
    by_cases h2 : (s.current_type == some "Sparse infill" && Rat.blt t s.current_z) = true
    · rw [if_pos h2, checkExtrusion_eq]
      exact ⟨s, rfl, rfl, rfl, fun _ => rfl⟩
    · rw [if_neg h2]
      exact ⟨s, rfl, rfl, rfl, fun _ => rfl⟩

/-- One full loop iteration on a stripped line: always `ok`, preserves the
violation data, and preserves `current_type` on non-`";TYPE:"` lines. -/
lemma processStripped_spec (t : ℚ) (s : ScanState) (line : List Char) :
    ∃ s', processStripped t s line = Except.ok s' ∧
      s'.bad_layers = s.bad_layers ∧
      s'.has_bad_infill = s.has_bad_infill ∧
      ((";TYPE:".data.isPrefixOf line) = false → s'.current_type = s.current_type) := by
  unfold processStripped
  by_cases h1 : (";Z:".data.isPrefixOf line) = true
  · rw [if_pos h1]
    obtain ⟨hty, hbl, hbi⟩ := zCommentUpdate_fields s line
    exact ⟨_, rfl, hbl, hbi, fun _ => hty⟩
  · rw [if_neg h1]
    obtain ⟨mty, mbl, mbi⟩ := motionUpdate_fields s line
    obtain ⟨s', ha, hbl, hbi, hty⟩ := afterMotion_spec t (motionUpdate s line) line
    exact ⟨s', ha, hbl.trans mbl, hbi.trans mbi, fun hf => (hty hf).trans mty⟩

/-- The whole loop: always `ok`, preserves the violation data, and preserves
`current_type` when no line (after stripping) is a `";TYPE:"` directive. -/
lemma scanLines_spec (t : ℚ) (lines : List String) : ∀ s : ScanState,
    ∃ s', scanLines t s lines = Except.ok s' ∧
      s'.bad_layers = s.bad_layers ∧
      s'.has_bad_infill = s.has_bad_infill ∧
      ((∀ l ∈ lines, (";TYPE:".data.isPrefixOf (pyStrip l.data)) = false) →
        s'.current_type = s.current_type) := by
  induction lines with
  | nil => exact fun s => ⟨s, rfl, rfl, rfl, fun _ => rfl⟩
  | cons l ls ih =>
    intro s
    obtain ⟨s1, h1, hbl1, hbi1, hty1⟩ := processStripped_spec t s (pyStrip l.data)
    obtain ⟨s2, h2, hbl2, hbi2, hty2⟩ := ih s1
    refine ⟨s2, ?_, hbl2.trans hbl1, hbi2.trans hbi1, ?_⟩
    · unfold scanLines processLine
      rw [h1]
      exact h2
    · intro hall
      have hl := hall l (List.mem_cons_self l ls)
      have hls : ∀ x ∈ ls, (";TYPE:".data.isPrefixOf (pyStrip x.data)) = false :=
        fun x hx => hall x (List.mem_cons_of_mem l hx)
      exact (hty2 hls).trans (hty1 hl)

/-- Every scan that runs at all ends `ok` with no recorded violations. -/
lemma analyze_scan_empty (lines : List String) :
    ∃ s', scanLines Z_THRESHOLD initState lines = Except.ok s' ∧
      s'.bad_layers = [] ∧ s'.has_bad_infill = false := by
  obtain ⟨s', h, hbl, hbi, -⟩ := scanLines_spec Z_THRESHOLD lines initState
  exact ⟨s', h, hbl, hbi⟩

/-- Every scan that runs at all returns `True`. -/
lemma analyze_true (lines : List String) : step_3_analyze_gcode (some lines) = true := by
  obtain ⟨s', h, hbl, hbi⟩ := analyze_scan_empty lines
  unfold step_3_analyze_gcode
  simp only [step_3_outcome]
  rw [h]
  show (!s'.has_bad_infill) = true
  rw [hbi]
  rfl

/-! ### Concrete streams used by the claims -/

/-- Scenario B of the spec: sparse infill declared, height 25.0, extruding
move. -/
def scenarioB : List String := [";TYPE:Sparse infill", ";Z:25.0", "G1 X1 Y1 E1.0"]

/-- Two extruding moves at the identical height 25.0 under sparse infill. -/
def dupViolationStream : List String :=
  [";TYPE:Sparse infill", ";Z:25.0", "G1 X1 Y1 E1.0", "G1 X2 Y2 E1.0"]

/-- A session state sitting exactly at the threshold inside sparse infill. -/
def sInfillAt20 : ScanState :=
  { current_z := 20, current_type := some "Sparse infill", bad_layers := [],
    has_bad_infill := false }

/-! ### The claims -/

/-- Claim C1 (code_bug evidence): on the stream `[";TYPE:Sparse infill",
";Z:25.0", "G1 X1 Y1 E1.0"]` with the default threshold 20.0 the code
returns `True` (passed) and ends the scan with an empty violations list and
the flag still `False` — not, as the claim and the spec's scenario B state,
`passed = false` with `violations = [25.0]`.  The claim reflects the
documented intent (the source's own comment at line 230 calls the condition
a "check for positive extrusion" and line 240 prints a FAILURE message),
but the constant conjunct `not "E-."` at line 230 makes the recording
branch unreachable. -/
theorem claim_C1_code_eval :
    step_3_analyze_gcode (some scenarioB) = true ∧
    scanLines Z_THRESHOLD initState scenarioB =
      Except.ok { current_z := 25, current_type := some "Sparse infill",
                  bad_layers := [], has_bad_infill := false } :=
  ⟨rfl, rfl⟩

/-- Claim C2 (confirmed): for every line stream that is read successfully,
the scan records no violation and the function returns `True`: the
extrusion condition of line 230 is identically false (its conjunct
`not "E-."` negates a truthy constant), so `bad_layers` stays empty,
`has_bad_infill` stays `False`, and `step_3_analyze_gcode` returns
`True`. -/
theorem claim_C2 (lines : List String) :
    (∀ l : List Char, extrusionStringCheck l = false) ∧
    ∃ s', scanLines Z_THRESHOLD initState lines = Except.ok s' ∧
      s'.bad_layers = [] ∧ s'.has_bad_infill = false ∧
      step_3_analyze_gcode (some lines) = true := by
  refine ⟨extrusionStringCheck_false, ?_⟩
  obtain ⟨s', h, hbl, hbi⟩ := analyze_scan_empty lines
  exact ⟨s', h, hbl, hbi, analyze_true lines⟩

/-- Claim C3 (counterexample): the returned value does not keep the
I/O-failure outcome and the verification-failed outcome distinct — the
missing-file branch (verify.py line 183) and the verification-failed branch
(line 248) return the same value `False`. -/
theorem claim_C3_counterexample :
    step_3_return AnalyzeOutcome.fileMissing =
      step_3_return (AnalyzeOutcome.scanDone true [25]) :=
  rfl

/-- Claim C3 (amended): the scanner returns a single boolean in which a
missing/unreadable input, a parse abort, and a verification-failed scan all
yield `False`; the outcomes are distinguished only by printed messages, not
by the returned value. -/
theorem claim_C3_amended :
    step_3_analyze_gcode none = false ∧
    step_3_return AnalyzeOutcome.fileMissing = false ∧
    step_3_return AnalyzeOutcome.parseError = false ∧
    (∀ layers : List ℚ, step_3_return (AnalyzeOutcome.scanDone true layers) = false) :=
  ⟨rfl, rfl, rfl, fun _ => rfl⟩

/-- Claim C4 (confirmed): for every stream whose scan completes, the boolean
verdict is `true` iff the violations list is empty at end of stream — both
for the final flag (`not has_bad_infill`, line 246) and for the returned
value of the function. -/
theorem claim_C4 (lines : List String) (s' : ScanState)
    (h : scanLines Z_THRESHOLD initState lines = Except.ok s') :
    ((!s'.has_bad_infill) = true ↔ s'.bad_layers = []) ∧
    (step_3_analyze_gcode (some lines) = true ↔ s'.bad_layers = []) := by
  obtain ⟨s2, h2, hbl, hbi⟩ := analyze_scan_empty lines
  rw [h] at h2
  injection h2 with hs
  subst hs
  constructor
  · rw [hbl, hbi]
    simp
  · rw [hbl, analyze_true lines]
    simp

/-- Witness for C4 at the concrete stream `[";Z:25.0", "G1 X1 E1.0"]`. -/
theorem claim_C4_witness :
    scanLines Z_THRESHOLD initState [";Z:25.0", "G1 X1 E1.0"] =
      Except.ok { current_z := 25, current_type := none, bad_layers := [],
                  has_bad_infill := false } ∧
    (((!({ current_z := 25, current_type := none, bad_layers := [],
           has_bad_infill := false } : ScanState).has_bad_infill) = true ↔
        ({ current_z := 25, current_type := none, bad_layers := [],
           has_bad_infill := false } : ScanState).bad_layers = []) ∧
      (step_3_analyze_gcode (some [";Z:25.0", "G1 X1 E1.0"]) = true ↔
        ({ current_z := 25, current_type := none, bad_layers := [],
           has_bad_infill := false } : ScanState).bad_layers = [])) :=
  ⟨rfl, claim_C4 [";Z:25.0", "G1 X1 E1.0"]
      { current_z := 25, current_type := none, bad_layers := [], has_bad_infill := false }
      rfl⟩

/-- Claim C5 (code_bug evidence): on a stream with two distinct violating
lines at the identical height 25.0 the code records nothing at all —
`bad_layers` ends `[]`, not the claimed single entry `[25.0]` — because the
full violation condition (verify.py line 230) is unsatisfiable for every
line; the dedup guard at line 236 is never reached. -/
theorem claim_C5_code_eval :
    scanLines Z_THRESHOLD initState dupViolationStream =
      Except.ok { current_z := 25, current_type := some "Sparse infill",
                  bad_layers := [], has_bad_infill := false } ∧
    step_3_analyze_gcode (some dupViolationStream) = true :=
  ⟨rfl, rfl⟩

/-- Claim C6 (confirmed): a stream with no line beginning (after stripping)
with `";TYPE:Sparse infill"` always yields the verdict `passed = true`
(indeed, by C2, every successfully read stream does). -/
theorem claim_C6 (lines : List String)
    (_h : ∀ l ∈ lines, (";TYPE:Sparse infill".data.isPrefixOf (pyStrip l.data)) = false) :
    step_3_analyze_gcode (some lines) = true :=
  analyze_true lines

/-- Witness for C6 at scenario A of the spec (wrong feature label). -/
theorem claim_C6_witness :
    (∀ l ∈ [";TYPE:Internal solid infill", ";Z:25.0", "G1 X1 Y1 E1.0"],
      (";TYPE:Sparse infill".data.isPrefixOf (pyStrip (String.data l))) = false) ∧
    step_3_analyze_gcode (some [";TYPE:Internal solid infill", ";Z:25.0", "G1 X1 Y1 E1.0"]) =
      true :=
  ⟨by decide, claim_C6 [";TYPE:Internal solid infill", ";Z:25.0", "G1 X1 Y1 E1.0"] (by decide)⟩

/-- Claim C7 (confirmed): once a `";TYPE:"` line sets `current_type` to the
label after the marker, that exact value persists across any number of
subsequent lines none of which is a `";TYPE:"` directive, whatever those
lines contain. -/
theorem claim_C7 (t : ℚ) (s : ScanState) (tline : String)
    (htl : (";TYPE:".data.isPrefixOf (pyStrip tline.data)) = true)
    (lines : List String)
    (hl : ∀ l ∈ lines, (";TYPE:".data.isPrefixOf (pyStrip l.data)) = false) :
    ∃ s1 s2, processLine t s tline = Except.ok s1 ∧
      s1.current_type = some (String.mk ((splitColon (pyStrip tline.data)).getD 1 [])) ∧
      scanLines t s1 lines = Except.ok s2 ∧
      s2.current_type = s1.current_type := by
  have hz := starts_TYPE_not_Z _ htl
  obtain ⟨s2, hscan, -, -, hty⟩ := scanLines_spec t lines
    { motionUpdate s (pyStrip tline.data) with
      current_type := some (String.mk ((splitColon (pyStrip tline.data)).getD 1 [])) }
  refine ⟨_, s2, ?_, rfl, hscan, hty hl⟩
  unfold processLine processStripped afterMotion
  rw [hz, htl]
  rfl

/-- Witness for C7: the label "Sparse infill" set by the first line survives
three non-`";TYPE:"` lines. -/
theorem claim_C7_witness :
    (";TYPE:".data.isPrefixOf (pyStrip ";TYPE:Sparse infill".data)) = true ∧
    (∀ l ∈ ["G1 X1 Y1 E1.0", "; a comment", ""],
      (";TYPE:".data.isPrefixOf (pyStrip (String.data l))) = false) ∧
    ∃ s1 s2, processLine 20 initState ";TYPE:Sparse infill" = Except.ok s1 ∧
      s1.current_type =
        some (String.mk ((splitColon (pyStrip ";TYPE:Sparse infill".data)).getD 1 [])) ∧
      scanLines 20 s1 ["G1 X1 Y1 E1.0", "; a comment", ""] = Except.ok s2 ∧
      s2.current_type = s1.current_type :=
  ⟨by decide, by decide,
    claim_C7 20 initState ";TYPE:Sparse infill" (by decide)
      ["G1 X1 Y1 E1.0", "; a comment", ""] (by decide)⟩

/-- Claim C8 (confirmed): the malformed height payloads `";Z:abc"` and
`"G1 X10 Zoops"` leave the whole state (in particular `current_height`)
unchanged and do not abort the scan, for every state and threshold. -/
theorem claim_C8 (t : ℚ) (s : ScanState) :
    processLine t s ";Z:abc" = Except.ok s ∧
    processLine t s "G1 X10 Zoops" = Except.ok s := by
  constructor
  · rfl
  · have key : processLine t s "G1 X10 Zoops" =
        afterMotion t s (pyStrip "G1 X10 Zoops".data) := rfl
    rw [key]
    unfold afterMotion
    rw [if_neg (show ¬((";TYPE:".data.isPrefixOf (pyStrip "G1 X10 Zoops".data)) = true)
          from by decide)]
    split
    · exact checkExtrusion_eq s _
    · rfl

/-- Claim C9 (confirmed): a line processed while `current_feature` is
"Sparse infill" and `current_height` equals the threshold exactly records
no violation, and any height present in `bad_layers` after the step was
either already recorded before it or exceeds the threshold strictly. -/
theorem claim_C9 (t : ℚ) (s : ScanState) (line : String) (s' : ScanState)
    (_hfeat : s.current_type = some "Sparse infill")
    (_hz : s.current_z = t)
    (hrun : processLine t s line = Except.ok s') :
    s'.bad_layers = s.bad_layers ∧
    ∀ h ∈ s'.bad_layers, h ∈ s.bad_layers ∨ t < h := by
  obtain ⟨s2, h2, hbl, -, -⟩ := processStripped_spec t s (pyStrip line.data)
  rw [show processLine t s line = processStripped t s (pyStrip line.data) from rfl,
    h2] at hrun
  injection hrun with hs
  subst hs
  exact ⟨hbl, fun h hm => Or.inl (hbl ▸ hm)⟩

/-- Witness for C9: at the threshold exactly (height 20, threshold 20), an
extruding sparse-infill move records nothing. -/
theorem claim_C9_witness :
    sInfillAt20.current_type = some "Sparse infill" ∧
    sInfillAt20.current_z = 20 ∧
    processLine 20 sInfillAt20 "G1 X1 Y1 E1.0" = Except.ok sInfillAt20 ∧
    (sInfillAt20.bad_layers = sInfillAt20.bad_layers ∧
      ∀ h ∈ sInfillAt20.bad_layers, h ∈ sInfillAt20.bad_layers ∨ (20 : ℚ) < h) :=
  ⟨rfl, rfl, rfl,
    claim_C9 20 sInfillAt20 "G1 X1 Y1 E1.0" sInfillAt20 rfl rfl rfl⟩

/-- Claim C10 (counterexample): on the feature line `";TYPE:A:B"` the code
stores `"A"` — the text between the first and second colons — not the
entire remainder `"A:B"` after the marker, refuting the claim for labels
containing a colon. -/
theorem claim_C10_counterexample :
    processLine 20 initState ";TYPE:A:B" =
      Except.ok { current_z := 0, current_type := some "A", bad_layers := [],
                  has_bad_infill := false } ∧
    some ("A" : String) ≠ some ("A:B" : String) :=
  ⟨rfl, by decide⟩

/-- Claim C10 (amended): on a line beginning with `";TYPE:"`, the value
stored into `current_feature` is element 1 of the colon-split of the
stripped line — i.e. the text between the first and second colons, taken
verbatim with no normalization or case-folding; it equals the full
remainder of the line after the marker exactly when the label itself
contains no colon. -/
theorem claim_C10_amended (t : ℚ) (s : ScanState) (line : String)
    (h : (";TYPE:".data.isPrefixOf (pyStrip line.data)) = true) :
    processLine t s line = Except.ok
      { motionUpdate s (pyStrip line.data) with
        current_type := some (String.mk ((splitColon (pyStrip line.data)).getD 1 [])) } := by
  have hz := starts_TYPE_not_Z _ h
  unfold processLine processStripped afterMotion
  rw [hz, h]
  rfl

/-- Witness for C10 (amended) at the line `";TYPE:Foo:Bar"`. -/
theorem claim_C10_amended_witness :
    (";TYPE:".data.isPrefixOf (pyStrip ";TYPE:Foo:Bar".data)) = true ∧
    processLine 20 initState ";TYPE:Foo:Bar" = Except.ok
      { motionUpdate initState (pyStrip ";TYPE:Foo:Bar".data) with
        current_type :=
          some (String.mk ((splitColon (pyStrip ";TYPE:Foo:Bar".data)).getD 1 [])) } :=
  ⟨by decide, claim_C10_amended 20 initState ";TYPE:Foo:Bar" (by decide)⟩
